import Mathlib

/-!
Verification of the panorama viewer component (`ThreePanoramaViewer.tsx`)
of the Tree-Map repository.

The component owns, per mounted scene, a set of closure variables
(`isMouseDown`, `mouseX`, `mouseY`, `lon`, `lat`) plus the camera field
of view, mutated by the handlers `onMouseDown`, `onMouseUp`,
`onMouseMove`, `onWheel`; a render loop `animate`; and a React state
machine driven by two effects (a fetch effect keyed on
`[panoId, clickedImagePath]` and a scene effect keyed on
`[panoramaImage]`).  Floating-point numbers are modelled as rationals.
-/

namespace PanoViewer

/-- The per-scene closure variables of the component together with the
camera field of view: `isMouseDown`, `mouseX`, `mouseY`, `lon`, `lat`
are declared as `let` variables in the scene effect; `fov` lives on the
`THREE.PerspectiveCamera`, created with fov 75. -/
structure ControlState where
  isMouseDown : Bool
  mouseX : ℚ
  mouseY : ℚ
  lon : ℚ
  lat : ℚ
  fov : ℚ
deriving Repr, DecidableEq

/-- Initial values: the closure variables start at `false, 0, 0, 0, 0`
and the camera is built as `new THREE.PerspectiveCamera(75, ...)`. -/
def initControlState : ControlState :=
  { isMouseDown := false, mouseX := 0, mouseY := 0, lon := 0, lat := 0, fov := 75 }

/-- `onMouseDown`: begin a drag and record the pointer position. -/
def onMouseDown (s : ControlState) (clientX clientY : ℚ) : ControlState :=
  { s with isMouseDown := true, mouseX := clientX, mouseY := clientY }

/-- `onMouseUp`: end the drag. -/
def onMouseUp (s : ControlState) : ControlState :=
  { s with isMouseDown := false }

/-- `onMouseMove`: if not dragging, return; otherwise take deltas from
the recorded position, record the new position, update
`lon -= deltaX * 0.1`, `lat += deltaY * 0.1`, and clamp the latitude
with `lat = Math.max(-85, Math.min(85, lat))`. -/
def onMouseMove (s : ControlState) (clientX clientY : ℚ) : ControlState :=
  if !s.isMouseDown then s
  else
    let deltaX := clientX - s.mouseX
    let deltaY := clientY - s.mouseY
    let lon := s.lon - deltaX * (1/10)
    let latRaw := s.lat + deltaY * (1/10)
    let lat := max (-85) (min 85 latRaw)
    { s with mouseX := clientX, mouseY := clientY, lon := lon, lat := lat }

/-- `THREE.MathUtils.clamp(value, min, max) = Math.max(min, Math.min(max, value))`. -/
def clamp (value lo hi : ℚ) : ℚ :=
  max lo (min hi value)

/-- `onWheel`: `fov = camera.fov + event.deltaY * 0.05`, then
`camera.fov = THREE.MathUtils.clamp(fov, 10, 75)`. -/
def onWheel (s : ControlState) (deltaY : ℚ) : ControlState :=
  { s with fov := clamp (s.fov + deltaY * (1/20)) 10 75 }

/-- The input events the component registers handlers for (the
contextmenu handler only calls preventDefault and is omitted here;
it is accounted for in the resource model below). -/
inductive InputEvent where
  | mouseDown (x y : ℚ)
  | mouseUp
  | mouseMove (x y : ℚ)
  | wheel (deltaY : ℚ)
deriving Repr, DecidableEq

/-- Dispatch one input event to its handler. -/
def stepControl (s : ControlState) : InputEvent → ControlState
  | InputEvent.mouseDown x y => onMouseDown s x y
  | InputEvent.mouseUp => onMouseUp s
  | InputEvent.mouseMove x y => onMouseMove s x y
  | InputEvent.wheel dy => onWheel s dy

/-- Process a whole sequence of input events from the initial state. -/
def runControl (es : List InputEvent) : ControlState :=
  es.foldl stepControl initControlState

lemma stepControl_lat_range (s : ControlState) (e : InputEvent)
    (h : -85 ≤ s.lat ∧ s.lat ≤ 85) :
    -85 ≤ (stepControl s e).lat ∧ (stepControl s e).lat ≤ 85 := by
  cases e with
  | mouseDown x y => simpa [stepControl, onMouseDown] using h
  | mouseUp => simpa [stepControl, onMouseUp] using h
  | wheel dy => simpa [stepControl, onWheel] using h
  | mouseMove x y =>
    simp only [stepControl, onMouseMove]
    split
    · exact h
    · refine ⟨le_max_left _ _, max_le (by norm_num) (min_le_left _ _)⟩

lemma foldl_lat_range (es : List InputEvent) (s : ControlState)
    (h : -85 ≤ s.lat ∧ s.lat ≤ 85) :
    -85 ≤ (es.foldl stepControl s).lat ∧ (es.foldl stepControl s).lat ≤ 85 := by
  induction es generalizing s with
  | nil => exact h
  | cons e es ih => exact ih _ (stepControl_lat_range s e h)

lemma stepControl_fov_range (s : ControlState) (e : InputEvent)
    (h : 10 ≤ s.fov ∧ s.fov ≤ 75) :
    10 ≤ (stepControl s e).fov ∧ (stepControl s e).fov ≤ 75 := by
  cases e with
  | mouseDown x y => simpa [stepControl, onMouseDown] using h
  | mouseUp => simpa [stepControl, onMouseUp] using h
  | mouseMove x y =>
    simp only [stepControl, onMouseMove]
    split
    · exact h
    · exact h
  | wheel dy =>
    refine ⟨le_max_left _ _, max_le (by norm_num) (min_le_left _ _)⟩

lemma foldl_fov_range (es : List InputEvent) (s : ControlState)
    (h : 10 ≤ s.fov ∧ s.fov ≤ 75) :
    10 ≤ (es.foldl stepControl s).fov ∧ (es.foldl stepControl s).fov ≤ 75 := by
  induction es generalizing s with
  | nil => exact h
  | cons e es ih => exact ih _ (stepControl_fov_range s e h)

/-- C2: for every sequence of input events processed from the initial
state (in particular every sequence of pointer moves while dragging),
the latitude is within [-85, 85] after each update: `onMouseMove`
clamps it with `Math.max(-85, Math.min(85, lat))` and no other handler
touches it. -/
theorem latitude_always_clamped (es : List InputEvent) :
    -85 ≤ (runControl es).lat ∧ (runControl es).lat ≤ 85 :=
  foldl_lat_range es initControlState (by norm_num [initControlState])

/-- C3: after every sequence of input events the field of view is
within [10, 75] (every `onWheel` clamps it and nothing else changes
it), and in particular a wheel event with deltaY = 200 starting from
fov = 75 leaves it clamped at 75, since 75 + 200 * 0.05 = 85 > 75. -/
theorem fov_always_clamped (es : List InputEvent) :
    (10 ≤ (runControl es).fov ∧ (runControl es).fov ≤ 75) ∧
      (onWheel initControlState 200).fov = 75 :=
  ⟨foldl_fov_range es initControlState (by norm_num [initControlState]),
    by norm_num [onWheel, initControlState, clamp]⟩

/-- C6 counterexample: pointer-down at (100,100) then pointer-move to
(80,130): deltaX = -20, so `lon -= deltaX * 0.1` adds 2.0 to the
longitude; it does not decrease by 2.0 as the claim states. -/
theorem drag_scenario_counterexample :
    ¬ ((onMouseMove (onMouseDown initControlState 100 100) 80 130).lon
        = (onMouseDown initControlState 100 100).lon - 2) := by
  norm_num [onMouseMove, onMouseDown, initControlState]

/-- C6 amended: for the drag pointer-down (100,100) then pointer-move
(80,130) with sensitivity 0.1, the longitude increases by 2.0 and the
latitude increases by 3.0 relative to their prior values. -/
theorem drag_scenario_amended :
    (onMouseMove (onMouseDown initControlState 100 100) 80 130).lon
        = (onMouseDown initControlState 100 100).lon + 2 ∧
      (onMouseMove (onMouseDown initControlState 100 100) 80 130).lat
        = (onMouseDown initControlState 100 100).lat + 3 := by
  norm_num [onMouseMove, onMouseDown, initControlState]

/-- Sum of the horizontal pointer deltas of a sequence of pointer-move
positions, as `onMouseMove` computes them: each delta is the clientX of
the event minus the recorded `mouseX`, which is then updated to the
clientX of the event. -/
def deltaXSum : ℚ → List (ℚ × ℚ) → ℚ
  | _, [] => 0
  | x0, p :: ps => (p.1 - x0) + deltaXSum p.1 ps

/-- Process a sequence of pointer-move events given by their
(clientX, clientY) positions. -/
def processMoves (s : ControlState) (moves : List (ℚ × ℚ)) : ControlState :=
  moves.foldl (fun t p => onMouseMove t p.1 p.2) s

lemma processMoves_lon (moves : List (ℚ × ℚ)) (s : ControlState)
    (h : s.isMouseDown = true) :
    (processMoves s moves).lon = s.lon - (1/10) * deltaXSum s.mouseX moves := by
  induction moves generalizing s with
  | nil => simp [processMoves, deltaXSum]
  | cons p ps ih =>
    have hstep : onMouseMove s p.1 p.2 =
        { s with mouseX := p.1, mouseY := p.2,
                 lon := s.lon - (p.1 - s.mouseX) * (1/10),
                 lat := max (-85) (min 85 (s.lat + (p.2 - s.mouseY) * (1/10))) } := by
      simp [onMouseMove, h]
    have := ih (onMouseMove s p.1 p.2) (by rw [hstep]; exact h)
    rw [processMoves] at this ⊢
    simp only [List.foldl_cons]
    rw [this, hstep]
    simp [deltaXSum]
    ring

/-- C10: the longitude is never clamped or wrapped.  After a pointer
down at any position (x, y), processing any sequence of pointer moves
leaves the longitude equal to its prior value minus 0.1 times the sum
of the horizontal deltas; moreover the longitude can exceed any bound,
so no reduction modulo 360 and no range limit is applied. -/
theorem longitude_unclamped_sum :
    (∀ (s : ControlState) (x y : ℚ) (moves : List (ℚ × ℚ)),
        (processMoves (onMouseDown s x y) moves).lon
          = s.lon - (1/10) * deltaXSum x moves) ∧
      (∀ M : ℚ, ∃ moves : List (ℚ × ℚ),
        (processMoves (onMouseDown initControlState 0 0) moves).lon > M) := by
  constructor
  · intro s x y moves
    have := processMoves_lon moves (onMouseDown s x y) rfl
    simpa [onMouseDown] using this
  · intro M
    refine ⟨[(-10 * M - 10, 0)], ?_⟩
    have := processMoves_lon [(-10 * M - 10, 0)] (onMouseDown initControlState 0 0) rfl
    rw [this]
    simp [onMouseDown, initControlState, deltaXSum]
    linarith

/-- An abstract model of the trigonometric primitives used by the
render loop (`Math.sin`, `Math.cos` and the constant pi used by
`THREE.MathUtils.degToRad`); the render-loop claim is about how the
source composes them, so it holds for every such model. -/
structure TrigModel where
  pi : ℚ
  sin : ℚ → ℚ
  cos : ℚ → ℚ

/-- `THREE.MathUtils.degToRad(degrees) = degrees * pi / 180`. -/
def degToRad (m : TrigModel) (degrees : ℚ) : ℚ :=
  degrees * m.pi / 180

/-- The sphere radius used throughout the scene: the geometry is a
sphere of radius 500 and the look-at target is computed at radius 500. -/
def sphereRadius : ℚ := 500

/-- The camera position: the source never assigns
`camera.position`, so the camera stays at the `THREE.PerspectiveCamera`
default, the origin. -/
def cameraPosition : ℚ × ℚ × ℚ := (0, 0, 0)

/-- The observable actions of one pass of the render loop. -/
inductive RenderAction where
  | lookAt (target : ℚ × ℚ × ℚ)
  | render
  | scheduleNextFrame
deriving Repr, DecidableEq

/-- One pass of `animate()` from the source: compute
`phi = degToRad(90 - lat)`, `theta = degToRad(lon)`, the target
`(500 sin phi cos theta, 500 cos phi, 500 sin phi sin theta)`, call
`camera.lookAt`, call `renderer.render`, and call
`requestAnimationFrame(animate)` to schedule the next pass. -/
def animateStep (m : TrigModel) (lon lat : ℚ) : List RenderAction :=
  let phi := degToRad m (90 - lat)
  let theta := degToRad m lon
  let x := 500 * m.sin phi * m.cos theta
  let y := 500 * m.cos phi
  let z := 500 * m.sin phi * m.sin theta
  [RenderAction.lookAt (x, y, z), RenderAction.render, RenderAction.scheduleNextFrame]

/-- The look-at target exactly as the specification words it:
`phi = radians(90 - latitude)`, `theta = radians(longitude)`, and the
point `(R sin(phi) cos(theta), R cos(phi), R sin(phi) sin(theta))` on a
sphere of radius R.  Stated separately from `animateStep` so the two
can be compared. -/
def specLookAtTarget (m : TrigModel) (R lon lat : ℚ) : ℚ × ℚ × ℚ :=
  (R * m.sin (degToRad m (90 - lat)) * m.cos (degToRad m lon),
   R * m.cos (degToRad m (90 - lat)),
   R * m.sin (degToRad m (90 - lat)) * m.sin (degToRad m lon))

/-- C7: each render step computes the look-at target from the current
(longitude, latitude) exactly as the specification formula with
R = 500, orients the camera (sitting at the origin) toward that point,
renders the scene, and schedules the next pass — for every model of
the trigonometric primitives. -/
theorem animate_matches_spec_target (m : TrigModel) (lon lat : ℚ) :
    animateStep m lon lat =
        [RenderAction.lookAt (specLookAtTarget m sphereRadius lon lat),
         RenderAction.render, RenderAction.scheduleNextFrame] ∧
      cameraPosition = (0, 0, 0) :=
  ⟨rfl, rfl⟩

/-- One network request issued by `fetchPanorama`, identified by the
`panoId` and optional `clickedImagePath` it was built from. -/
structure FetchRequest where
  reqPanoId : String
  imagePath : Option String
deriving Repr, DecidableEq

/-- How a fetch settles: `success` carries the object URL produced by
`URL.createObjectURL` from the response blob; `failure` carries the
HTTP statusText of a non-ok response; `transportError` carries the
message of a thrown non-HTTP error. -/
inductive FetchOutcome where
  | success (blobUrl : String)
  | failure (statusText : String)
  | transportError (message : String)
deriving Repr, DecidableEq

/-- The React state of the component: the props `panoId` and
`clickedImagePath`, the state hooks `panoramaImage`, `loading`,
`error`, plus bookkeeping for the model: the list of fetch requests
issued so far, the indices of requests already settled, the object URL
the live scene resources (geometry, material, texture, renderer) were
built from (`none` when no scene is live), the number of scene-resource
sets disposed so far, and the number of outstanding
`requestAnimationFrame` callbacks (each `animate()` call started by the
scene effect keeps exactly one outstanding, since every pass reschedules
itself and the cleanup contains no `cancelAnimationFrame`). -/
structure ViewerState where
  panoId : Option String
  clickedImagePath : Option String
  panoramaImage : Option String
  loading : Bool
  error : Option String
  requests : List FetchRequest
  settledIdx : List Nat
  sceneResources : Option String
  disposedCount : Nat
  outstandingFrames : Nat
deriving Repr, DecidableEq

/-- Initial mount with no props set. -/
def initViewerState : ViewerState :=
  { panoId := none, clickedImagePath := none, panoramaImage := none,
    loading := false, error := none, requests := [], settledIdx := [],
    sceneResources := none, disposedCount := 0, outstandingFrames := 0 }

/-- The mount div holding the Three.js canvas is rendered exactly when
the JSX ternary chain reaches its last branch: `panoId` non-null, not
`loading`, no `error`, and `panoramaImage` non-null. -/
def mountRendered (s : ViewerState) : Bool :=
  s.panoId.isSome && !s.loading && s.error.isNone && s.panoramaImage.isSome

/-- The cleanup registered by the scene effect: dispose geometry,
material, texture and renderer of the live scene, if any.  (It does not
cancel the animation frame loop, so `outstandingFrames` is unchanged.) -/
def disposeScene (s : ViewerState) : ViewerState :=
  match s.sceneResources with
  | some _ => { s with sceneResources := none, disposedCount := s.disposedCount + 1 }
  | none => s

/-- The body of the scene effect: if `panoramaImage` is non-null and the
mount div is rendered, build the sphere, texture, material and renderer
for that image and call `animate()`, which leaves one outstanding
`requestAnimationFrame` callback; otherwise return early. -/
def createScene (s : ViewerState) : ViewerState :=
  match s.panoramaImage with
  | some url =>
    if mountRendered s then
      { s with sceneResources := some url,
               outstandingFrames := s.outstandingFrames + 1 }
    else s
  | none => s

/-- The scene effect, keyed on `[panoramaImage]`: React re-runs it only
when `panoramaImage` changed from its previous value `oldImage`; it then
first runs the cleanup of the previous run (disposing the previous scene)
and then the new body. -/
def sceneEffect (oldImage : Option String) (s : ViewerState) : ViewerState :=
  if s.panoramaImage = oldImage then s
  else createScene (disposeScene s)

/-- The fetch effect, keyed on `[panoId, clickedImagePath]`: on a prop
change, if `panoId` is null it sets `panoramaImage` and `error` to null
and returns without fetching (the scene effect then runs since
`panoramaImage` changed); otherwise `fetchPanorama` sets `loading`,
clears `error` and issues one fetch.  The issued request carries no
sequence token: nothing records which request is the most recent. -/
def propsChange (pid path : Option String) (s : ViewerState) : ViewerState :=
  if pid = s.panoId ∧ path = s.clickedImagePath then s
  else
    let s0 := { s with panoId := pid, clickedImagePath := path }
    match pid with
    | none =>
      sceneEffect s.panoramaImage { s0 with panoramaImage := none, error := none }
    | some pid0 =>
      { s0 with loading := true, error := none,
                requests := s0.requests ++ [⟨pid0, path⟩] }

/-- The continuation of `fetchPanorama` when the fetch for request `i`
settles.  The handler applies its result unconditionally — it never
compares the request against the most recently issued one: on success
it stores the object URL with `setPanoramaImage` (re-running the scene
effect), on a non-ok response it throws and the catch stores the
message `Failed to fetch panorama: statusText`, on a transport error it
stores the message; `finally` clears `loading` in all cases. -/
def fetchSettled (i : Nat) (outcome : FetchOutcome) (s : ViewerState) : ViewerState :=
  if i < s.requests.length ∧ i ∉ s.settledIdx then
    let s0 := { s with settledIdx := i :: s.settledIdx }
    match outcome with
    | FetchOutcome.success url =>
      sceneEffect s.panoramaImage { s0 with panoramaImage := some url, loading := false }
    | FetchOutcome.failure st =>
      { s0 with error := some ("Failed to fetch panorama: " ++ st), loading := false }
    | FetchOutcome.transportError msg =>
      { s0 with error := some msg, loading := false }
  else s

/-- The external events driving the component: a change of the props,
or the settling of a previously issued fetch. -/
inductive VEvent where
  | props (pid path : Option String)
  | settled (reqIndex : Nat) (outcome : FetchOutcome)
deriving Repr, DecidableEq

/-- Dispatch one event. -/
def stepViewer (s : ViewerState) : VEvent → ViewerState
  | VEvent.props pid path => propsChange pid path s
  | VEvent.settled i outcome => fetchSettled i outcome s

/-- Run the component from its initial mount through a list of events. -/
def runViewer (es : List VEvent) : ViewerState :=
  es.foldl stepViewer initViewerState

/-- What the JSX renders. -/
inductive View where
  | placeholder
  | spinner
  | errorView (msg : String)
  | sceneView (image : String)
  | blank
deriving Repr, DecidableEq

/-- The JSX ternary chain: no `panoId` shows the placeholder, else
`loading` shows the spinner, else `error` shows the error view, else a
non-null `panoramaImage` shows the Three.js scene. -/
def displayedView (s : ViewerState) : View :=
  match s.panoId with
  | none => View.placeholder
  | some _ =>
    if s.loading then View.spinner
    else
      match s.error with
      | some m => View.errorView m
      | none =>
        match s.panoramaImage with
        | some img => View.sceneView img
        | none => View.blank

/-- A slow fetch for panorama A superseded by a load of panorama B:
A is requested (index 0), then B (index 1); the fetch of B settles
first with its blob URL, then the stale fetch of A settles. -/
def staleTrace : List VEvent :=
  [VEvent.props (some "A") none,
   VEvent.props (some "B") none,
   VEvent.settled 1 (FetchOutcome.success "blob:B"),
   VEvent.settled 0 (FetchOutcome.success "blob:A")]

/-- C1: the stale response IS applied.  After loading A, then B, with
the fetch of B settling first, the late settling of the superseded
fetch of A still calls `setPanoramaImage` — nothing in `fetchPanorama`
compares the settling request against the most recent one — so the
component ends up displaying the panorama of A while its current prop
is B. -/
theorem stale_response_applied :
    displayedView (runViewer staleTrace) = View.sceneView "blob:A" ∧
      (runViewer staleTrace).panoId = some "B" ∧
      (runViewer staleTrace).panoramaImage = some "blob:A" := by
  refine ⟨?_, ?_, ?_⟩ <;> rfl

/-- Load panorama p1 successfully, then load panorama p2 successfully:
both scene creations call `animate()`, and the cleanup between them
contains no `cancelAnimationFrame`. -/
def doubleLoadTrace : List VEvent :=
  [VEvent.props (some "p1") none,
   VEvent.settled 0 (FetchOutcome.success "blob:p1"),
   VEvent.props (some "p2") none,
   VEvent.settled 1 (FetchOutcome.success "blob:p2")]

/-- C9: across a panorama switch the render loop is duplicated.  After
loading a second panorama the viewer has two outstanding scheduled
render callbacks — the superseded `animate` loop keeps rescheduling
itself because the scene cleanup never cancels it — contradicting the
claim that at most one is outstanding at any time. -/
theorem render_loop_double_schedule :
    (runViewer doubleLoadTrace).outstandingFrames = 2 ∧
      (runViewer doubleLoadTrace).sceneResources = some "blob:p2" := by
  exact ⟨rfl, rfl⟩

/-- Load p1 successfully, then load p2 and have its fetch fail with
HTTP status text given by the backend. -/
def errorTrace : List VEvent :=
  [VEvent.props (some "p1") none,
   VEvent.settled 0 (FetchOutcome.success "blob:p1"),
   VEvent.props (some "p2") none,
   VEvent.settled 1 (FetchOutcome.failure "Internal Server Error")]

/-- C4 counterexample: on a failed fetch the component does transition
to the error state with a statusText-derived message and creates no new
SceneResources, but the previous SceneResources from the earlier
successful load are NOT disposed: the failure path never changes
`panoramaImage`, so the scene effect (keyed on `[panoramaImage]`) never
re-runs its cleanup — the resources built for p1 stay live and the
disposal count stays 0. -/
theorem error_disposal_counterexample :
    (runViewer errorTrace).error
        = some "Failed to fetch panorama: Internal Server Error" ∧
      (runViewer errorTrace).sceneResources = some "blob:p1" ∧
      (runViewer errorTrace).disposedCount = 0 := by
  refine ⟨?_, ?_, ?_⟩ <;> rfl

lemma disposeScene_sceneResources (s : ViewerState) :
    (disposeScene s).sceneResources = none := by
  cases h : s.sceneResources <;> simp [disposeScene, h]

lemma disposeScene_panoramaImage (s : ViewerState) :
    (disposeScene s).panoramaImage = s.panoramaImage := by
  cases h : s.sceneResources <;> simp [disposeScene, h]

lemma disposeScene_panoId (s : ViewerState) :
    (disposeScene s).panoId = s.panoId := by
  cases h : s.sceneResources <;> simp [disposeScene, h]

lemma disposeScene_requests (s : ViewerState) :
    (disposeScene s).requests = s.requests := by
  cases h : s.sceneResources <;> simp [disposeScene, h]

lemma createScene_panoId (s : ViewerState) :
    (createScene s).panoId = s.panoId := by
  unfold createScene
  split
  · split <;> rfl
  · rfl

lemma createScene_requests (s : ViewerState) :
    (createScene s).requests = s.requests := by
  unfold createScene
  split
  · split <;> rfl
  · rfl

lemma createScene_panoramaImage (s : ViewerState) :
    (createScene s).panoramaImage = s.panoramaImage := by
  unfold createScene
  split
  · split <;> rfl
  · rfl

lemma createScene_good (s : ViewerState)
    (h : ∀ r, s.sceneResources = some r → s.panoramaImage = some r) :
    ∀ r, (createScene s).sceneResources = some r →
      (createScene s).panoramaImage = some r := by
  intro r hr
  rw [createScene_panoramaImage]
  unfold createScene at hr
  split at hr
  next url heq =>
    split at hr
    · rw [heq]
      exact congrArg some (Option.some.inj hr)
    · exact h r hr
  next => exact h r hr

lemma mountRendered_of_panoId_none (s : ViewerState) (h : s.panoId = none) :
    mountRendered s = false := by
  simp [mountRendered, h]

lemma createScene_of_panoId_none (s : ViewerState) (h : s.panoId = none) :
    (createScene s).sceneResources = s.sceneResources := by
  unfold createScene
  split
  · rw [mountRendered_of_panoId_none s h]
    rfl
  · rfl

lemma sceneEffect_panoId (o : Option String) (s : ViewerState) :
    (sceneEffect o s).panoId = s.panoId := by
  unfold sceneEffect
  split
  · rfl
  · rw [createScene_panoId, disposeScene_panoId]

lemma sceneEffect_requests (o : Option String) (s : ViewerState) :
    (sceneEffect o s).requests = s.requests := by
  unfold sceneEffect
  split
  · rfl
  · rw [createScene_requests, disposeScene_requests]

lemma sceneEffect_good (o : Option String) (s : ViewerState)
    (h : s.panoramaImage = o →
      ∀ r, s.sceneResources = some r → s.panoramaImage = some r) :
    ∀ r, (sceneEffect o s).sceneResources = some r →
      (sceneEffect o s).panoramaImage = some r := by
  unfold sceneEffect
  split
  next heq => exact h heq
  next =>
    apply createScene_good
    intro r hr
    rw [disposeScene_sceneResources] at hr
    exact Option.noConfusion hr

lemma sceneEffect_resources_of_panoId_none (o : Option String) (s : ViewerState)
    (hid : s.panoId = none)
    (h : s.panoramaImage = o → s.sceneResources = none) :
    (sceneEffect o s).sceneResources = none := by
  unfold sceneEffect
  split
  next heq => exact h heq
  next =>
    rw [createScene_of_panoId_none _ (by rw [disposeScene_panoId]; exact hid),
      disposeScene_sceneResources]

/-- The two structural invariants of the component state: live scene
resources were built from the current `panoramaImage`, and with a null
`panoId` no scene resources are live. -/
def goodState (s : ViewerState) : Prop :=
  (∀ r, s.sceneResources = some r → s.panoramaImage = some r) ∧
    (s.panoId = none → s.sceneResources = none)

lemma stepViewer_good (s : ViewerState) (e : VEvent) (h : goodState s) :
    goodState (stepViewer s e) := by
  obtain ⟨h1, h2⟩ := h
  cases e with
  | props pid path =>
    show goodState (propsChange pid path s)
    simp only [propsChange]
    split
    · exact ⟨h1, h2⟩
    · cases pid with
      | none =>
        constructor
        · apply sceneEffect_good
          intro heq r hr
          have := h1 r hr
          rw [← heq] at this
          exact Option.noConfusion this
        · intro _
          apply sceneEffect_resources_of_panoId_none _ _ rfl
          intro heq
          cases hres : s.sceneResources with
          | none => rfl
          | some r =>
            have := h1 r hres
            rw [← heq] at this
            exact Option.noConfusion this
      | some pid0 =>
        refine ⟨fun r hr => h1 r hr, fun hn => ?_⟩
        exact Option.noConfusion hn
  | settled i outcome =>
    show goodState (fetchSettled i outcome s)
    simp only [fetchSettled]
    split
    · cases outcome with
      | success url =>
        constructor
        · apply sceneEffect_good
          intro heq r hr
          have := h1 r hr
          rw [← heq] at this
          exact this
        · intro hn
          rw [sceneEffect_panoId] at hn
          apply sceneEffect_resources_of_panoId_none _ _ hn
          intro _
          exact h2 hn
      | failure st => exact ⟨fun r hr => h1 r hr, fun hn => h2 hn⟩
      | transportError msg => exact ⟨fun r hr => h1 r hr, fun hn => h2 hn⟩
    · exact ⟨h1, h2⟩

lemma foldl_good (es : List VEvent) (s : ViewerState) (h : goodState s) :
    goodState (es.foldl stepViewer s) := by
  induction es generalizing s with
  | nil => exact h
  | cons e es ih => exact ih _ (stepViewer_good s e h)

lemma runViewer_good (es : List VEvent) : goodState (runViewer es) :=
  foldl_good es initViewerState
    ⟨fun _ hr => Option.noConfusion hr, fun _ => rfl⟩

/-- C5: whenever the host passes a null `panoId`, the fetch effect
clears `panoramaImage` and `error` and returns without fetching, and
the scene effect disposes whatever scene was live: the component shows
the idle placeholder, issues no new network request, and holds zero
live SceneResources. -/
theorem null_panoId_idle (es : List VEvent) (path : Option String) :
    displayedView (propsChange none path (runViewer es)) = View.placeholder ∧
      (propsChange none path (runViewer es)).sceneResources = none ∧
      (propsChange none path (runViewer es)).requests = (runViewer es).requests := by
  obtain ⟨h1, h2⟩ := runViewer_good es
  simp only [propsChange]
  split
  next hcond =>
    obtain ⟨hpid, -⟩ := hcond
    refine ⟨?_, h2 hpid.symm, rfl⟩
    unfold displayedView
    rw [← hpid]
  next =>
    refine ⟨?_, ?_, ?_⟩
    · unfold displayedView
      rw [sceneEffect_panoId]
    · apply sceneEffect_resources_of_panoId_none _ _ rfl
      intro heq
      cases hres : (runViewer es).sceneResources with
      | none => rfl
      | some r =>
        have := h1 r hres
        rw [← heq] at this
        exact Option.noConfusion this
    · rw [sceneEffect_requests]

/-- C4 amended: when a fetch settles with a non-ok HTTP response, the
component stores the error message `Failed to fetch panorama:`
followed by the statusText, clears `loading`, leaves `panoramaImage`
unchanged, and — because the scene effect is keyed on `panoramaImage`
— neither creates new SceneResources nor disposes the previous ones:
`sceneResources` and `disposedCount` are unchanged. -/
theorem error_state_amended (s : ViewerState) (i : Nat) (st : String)
    (hlen : i < s.requests.length) (hset : i ∉ s.settledIdx) :
    (fetchSettled i (FetchOutcome.failure st) s).error
        = some ("Failed to fetch panorama: " ++ st) ∧
      (fetchSettled i (FetchOutcome.failure st) s).loading = false ∧
      (fetchSettled i (FetchOutcome.failure st) s).sceneResources = s.sceneResources ∧
      (fetchSettled i (FetchOutcome.failure st) s).disposedCount = s.disposedCount ∧
      (fetchSettled i (FetchOutcome.failure st) s).panoramaImage = s.panoramaImage := by
  have hc : i < s.requests.length ∧ i ∉ s.settledIdx := ⟨hlen, hset⟩
  unfold fetchSettled
  rw [if_pos hc]
  exact ⟨rfl, rfl, rfl, rfl, rfl⟩

/-- A state with one issued, unsettled fetch for panorama p1. -/
def pendingFetchState : ViewerState :=
  { panoId := some "p1", clickedImagePath := none, panoramaImage := none,
    loading := true, error := none, requests := [⟨"p1", none⟩], settledIdx := [],
    sceneResources := none, disposedCount := 0, outstandingFrames := 0 }

/-- Witness for the amended C4 theorem at a concrete pending request. -/
theorem error_state_amended_witness :
    (fetchSettled 0 (FetchOutcome.failure "Internal Server Error") pendingFetchState).error
        = some ("Failed to fetch panorama: " ++ "Internal Server Error") ∧
      (fetchSettled 0 (FetchOutcome.failure "Internal Server Error") pendingFetchState).loading
        = false ∧
      (fetchSettled 0 (FetchOutcome.failure "Internal Server Error")
          pendingFetchState).sceneResources = pendingFetchState.sceneResources ∧
      (fetchSettled 0 (FetchOutcome.failure "Internal Server Error")
          pendingFetchState).disposedCount = pendingFetchState.disposedCount ∧
      (fetchSettled 0 (FetchOutcome.failure "Internal Server Error")
          pendingFetchState).panoramaImage = pendingFetchState.panoramaImage :=
  error_state_amended pendingFetchState 0 "Internal Server Error"
    (by decide) (by decide)

/-- Counts of registered event listeners (per event type) and of live
Three.js resources for one viewer, used to check the baseline after
load/unload cycles. -/
structure ResourceCounts where
  mousedown : Nat
  mousemove : Nat
  mouseup : Nat
  wheel : Nat
  contextmenu : Nat
  resize : Nat
  geometries : Nat
  materials : Nat
  textures : Nat
  renderers : Nat
deriving Repr, DecidableEq

/-- The baseline before the first load: nothing registered, nothing live. -/
def baselineCounts : ResourceCounts :=
  { mousedown := 0, mousemove := 0, mouseup := 0, wheel := 0,
    contextmenu := 0, resize := 0, geometries := 0, materials := 0,
    textures := 0, renderers := 0 }

/-- The scene-effect body, as it affects resource counts: it registers
the mousedown, mousemove, mouseup, wheel and contextmenu listeners on
the mount div, the resize listener on the window, and creates one
geometry, one material, one texture and one renderer. -/
def sceneSetupCounts (r : ResourceCounts) : ResourceCounts :=
  { r with mousedown := r.mousedown + 1, mousemove := r.mousemove + 1,
           mouseup := r.mouseup + 1, wheel := r.wheel + 1,
           contextmenu := r.contextmenu + 1, resize := r.resize + 1,
           geometries := r.geometries + 1, materials := r.materials + 1,
           textures := r.textures + 1, renderers := r.renderers + 1 }

/-- The cleanup, as it affects resource counts: it removes the
mousedown, mousemove, mouseup and wheel listeners from the mount div,
removes the resize listener from the window, and disposes the geometry,
the material, the texture and the renderer.  The contextmenu listener,
registered with an inline arrow function, is never removed. -/
def sceneCleanupCounts (r : ResourceCounts) : ResourceCounts :=
  { r with mousedown := r.mousedown - 1, mousemove := r.mousemove - 1,
           mouseup := r.mouseup - 1, wheel := r.wheel - 1,
           resize := r.resize - 1,
           geometries := r.geometries - 1, materials := r.materials - 1,
           textures := r.textures - 1, renderers := r.renderers - 1 }

/-- n repeated load/unload cycles starting from the baseline. -/
def loadUnloadCycles : Nat → ResourceCounts
  | 0 => baselineCounts
  | n + 1 => sceneCleanupCounts (sceneSetupCounts (loadUnloadCycles n))

/-- C8 counterexample: 50 load/unload cycles do NOT leave the resource
counts at the baseline — the contextmenu listener registered at each
setup is never removed by the cleanup, so 50 of them remain. -/
theorem teardown_listener_counterexample :
    loadUnloadCycles 50 ≠ baselineCounts ∧
      (loadUnloadCycles 50).contextmenu = 50 := by
  exact ⟨by decide, by decide⟩

/-- C8 amended: after any number of load/unload cycles the geometry,
material, texture and renderer counts and the mousedown, mousemove,
mouseup, wheel and resize listener counts return to the baseline, but
one unremoved contextmenu listener accumulates per cycle. -/
theorem teardown_amended (n : Nat) :
    loadUnloadCycles n = { baselineCounts with contextmenu := n } := by
  induction n with
  | zero => rfl
  | succ n ih =>
    show sceneCleanupCounts (sceneSetupCounts (loadUnloadCycles n)) = _
    rw [ih]
    rfl

end PanoViewer
